import Mathlib

/-!
Shallow embedding of the controller-input subsystem of
`impact_synth/midi_manager.py` (class `MidiManager`): the Control-Change
decoder (`process_cc_message`), the controller state store (`cc_values`,
`last_cc`), the query API (`get_cc`, `get_device_list`, `get_port_list`),
and the callback registry and dispatcher (`register_cc_callback`,
`unregister_cc_callback`, `trigger_callbacks`).

Modelling choices:
- Python dicts with integer keys are association lists with Python's
  assignment semantics: an existing key is updated in place (keeping its
  position), a fresh key is appended at the end.
- A Python callable is a record carrying an identity (`id`, standing for
  object identity, which is what `in` and `list.remove` compare), the
  number of declared positional parameters (`arity`, what
  `len(inspect.signature(cb).parameters)` returns for a plain function),
  and whether its body raises when run (`raises`).
- Calling a callable with `k` positional arguments raises `TypeError`
  before the body runs unless `k` equals the declared parameter count;
  this is recorded in an explicit `Invocation` trace entry, one per
  dispatch attempt, so that fan-out order and fault isolation are visible.
- Methods are top-level functions taking the `MidiManager` state
  explicitly; mutation is explicit state passing.
- Operations that can raise in Python are additionally given an
  `Except`-typed variant whose error cases are exactly the places the
  Python code can raise.
-/

/-- Python dict assignment `d[k] = v` on an association list with `Nat`
keys: the first (unique) matching key is updated in place, a fresh key is
appended at the end, matching Python insertion-order semantics. -/
def dictInsert {α : Type} : List (Nat × α) → Nat → α → List (Nat × α)
  | [], k, v => [(k, v)]
  | p :: t, k, v => if p.1 = k then (k, v) :: t else p :: dictInsert t k v

/-- Python `d.get(k)` / `k in d`: the value stored at a key, if present. -/
def dictGet {α : Type} : List (Nat × α) → Nat → Option α
  | [], _ => none
  | p :: t, k => if p.1 = k then some p.2 else dictGet t k

/-- A Python callable as seen by the dispatcher: `id` models object
identity (what `==` compares for functions), `arity` the declared
positional-parameter count reported by `inspect.signature`, `raises`
whether the body raises an exception when it runs. -/
structure Callback where
  id : Nat
  arity : Nat
  raises : Bool
deriving DecidableEq

/-- Result of one Python call attempt: the body ran to completion, the
body ran and raised, or the call itself raised `TypeError` because the
argument count did not match the declared parameter count. -/
inductive Outcome where
  | executed
  | raisedInBody
  | arityError
deriving DecidableEq

/-- Calling a Python callable with `numArgs` positional arguments. -/
def callPython (cb : Callback) (numArgs : Nat) : Outcome :=
  if numArgs = cb.arity then
    (if cb.raises then Outcome.raisedInBody else Outcome.executed)
  else Outcome.arityError

/-- Trace record of one dispatch attempt: which callback was called, the
arguments handed to it (`device = none` when the device name was omitted),
and how the call went. -/
structure Invocation where
  cbId : Nat
  cc : Nat
  value : Nat
  channel : Nat
  device : Option String
  outcome : Outcome
deriving DecidableEq

/-- One iteration of the dispatch loop body in
`MidiManager.trigger_callbacks`: `inspect.signature` is consulted and the
device name is passed exactly when the callback declares at least 4
parameters; the surrounding `try/except Exception: pass` discards any
exception, so an `Invocation` record is produced in every case. -/
def invokeOne (cc_number value channel : Nat) (device_name : Option String)
    (cb : Callback) : Invocation :=
  if 4 ≤ cb.arity then
    { cbId := cb.id, cc := cc_number, value := value, channel := channel,
      device := device_name, outcome := callPython cb 4 }
  else
    { cbId := cb.id, cc := cc_number, value := value, channel := channel,
      device := none, outcome := callPython cb 3 }

/-- The `MidiManager` state: the fields of `__init__` that the
controller-state, decoding and callback claims depend on. The backend
handles and polling threads (`midi_inputs`, `midi_threads`, `rtmidi`)
carry no observable state for these claims and are omitted. -/
structure MidiManager where
  running : Bool
  connected : Bool
  midi_devices : List String
  available_ports : List String
  cc_values : List (Nat × Nat)
  last_cc : Option (Nat × Nat)
  cc_callbacks : List (Nat × List Callback)
deriving DecidableEq

/-- `MidiManager.__init__` when no rtmidi backend could be imported
(`rtmidi is None`): the field initializers run and `init_midi` is never
called, so no port is discovered and every container stays empty. -/
def initNoBackend : MidiManager :=
  { running := true
    connected := false
    midi_devices := []
    available_ports := []
    cc_values := []
    last_cc := none
    cc_callbacks := [] }

/-- A Control-Change event as extracted by the decoding branch of
`process_cc_message`: second byte, third byte, low nibble of the status
byte. -/
structure ControlChangeEvent where
  controller_number : Nat
  value : Nat
  channel : Nat
deriving DecidableEq

/-- The decoding logic of `MidiManager.process_cc_message` in isolation:
`none` when the branch that stores and dispatches is not reached (fewer
than 2 bytes, a non-Control-Change status, or a Control-Change status
with fewer than 3 bytes). -/
def decode_cc (data : List Nat) : Option ControlChangeEvent :=
  if 2 ≤ data.length then
    if (data.getD 0 0) &&& 0xF0 = 0xB0 ∧ 3 ≤ data.length then
      some { controller_number := data.getD 1 0
             value := data.getD 2 0
             channel := (data.getD 0 0) &&& 0x0F }
    else none
  else none

/-- The callback list currently registered for a controller number:
`self.cc_callbacks[cc_number]` behind the `cc_number in self.cc_callbacks`
guard, empty when the key is absent. -/
def getCbs (m : MidiManager) (cc_number : Nat) : List Callback :=
  (dictGet m.cc_callbacks cc_number).getD []

/-- `MidiManager.trigger_callbacks`: if the controller number has an entry
in `cc_callbacks`, every registered callback is called in list order, each
inside its own `try/except Exception: pass`. Returns the dispatch trace. -/
def trigger_callbacks (m : MidiManager) (cc_number value channel : Nat)
    (device_name : Option String) : List Invocation :=
  match dictGet m.cc_callbacks cc_number with
  | some cbs => cbs.map (invokeOne cc_number value channel device_name)
  | none => []

/-- `MidiManager.process_cc_message`: on at least 2 bytes, split the
status byte into message type (high nibble) and channel (low nibble); on
a Control-Change status with at least 3 bytes, store `data[1] ↦ data[2]`
in `cc_values`, overwrite `last_cc` with the pair, and trigger the
callbacks. Returns the new state and the dispatch trace. -/
def process_cc_message (m : MidiManager) (data : List Nat)
    (device_name : String) : MidiManager × List Invocation :=
  if 2 ≤ data.length then
    if ((data.getD 0 0) &&& 0xF0 = 0xB0 ∧ 3 ≤ data.length) then
      let cc_number := data.getD 1 0
      let cc_value := data.getD 2 0
      let m1 := { m with cc_values := dictInsert m.cc_values cc_number cc_value
                         last_cc := some (cc_number, cc_value) }
      (m1, trigger_callbacks m1 cc_number cc_value ((data.getD 0 0) &&& 0x0F)
            (some device_name))
    else (m, [])
  else (m, [])

/-- `MidiManager.get_cc`: the stored value, or the caller's default. -/
def get_cc (m : MidiManager) (cc_number : Nat) (default : Nat) : Nat :=
  (dictGet m.cc_values cc_number).getD default

/-- `MidiManager.register_cc_callback`: create the list for the key if
absent, then append. -/
def register_cc_callback (m : MidiManager) (cc_number : Nat)
    (callback : Callback) : MidiManager :=
  { m with cc_callbacks :=
      dictInsert m.cc_callbacks cc_number (getCbs m cc_number ++ [callback]) }

/-- `MidiManager.unregister_cc_callback`: guarded `list.remove`, removing
the first occurrence only when the key exists and the callback is in its
list (`callback ∈ getCbs m cc_number` is exactly
`cc_number in self.cc_callbacks and callback in self.cc_callbacks[cc_number]`,
since the list at an absent key is empty). -/
def unregister_cc_callback (m : MidiManager) (cc_number : Nat)
    (callback : Callback) : MidiManager :=
  if callback ∈ getCbs m cc_number then
    { m with cc_callbacks :=
        dictInsert m.cc_callbacks cc_number ((getCbs m cc_number).erase callback) }
  else m

/-- `MidiManager.close`: sets `running` and `connected` to `False`. The
thread joins and per-input `close_port` calls touch no modelled field and
their exceptions are swallowed by the surrounding `try/except`. -/
def close (m : MidiManager) : MidiManager :=
  { m with running := false, connected := false }

/-- `MidiManager.get_device_list`. -/
def get_device_list (m : MidiManager) : List String :=
  m.midi_devices

/-- `MidiManager.get_port_list`. -/
def get_port_list (m : MidiManager) : List String :=
  m.available_ports

/-- Python `list.remove`: removes the first occurrence, raises
`ValueError` when the element is absent. -/
def pyListRemove (l : List Callback) (cb : Callback) :
    Except Unit (List Callback) :=
  if cb ∈ l then Except.ok (l.erase cb) else Except.error ()

/-- `get_cc` as an exception-aware call: `dict.get` never raises. -/
def get_cc_call (m : MidiManager) (cc_number dflt : Nat) : Except Unit Nat :=
  Except.ok (get_cc m cc_number dflt)

/-- `get_device_list` as an exception-aware call: an attribute read never
raises. -/
def get_device_list_call (m : MidiManager) : Except Unit (List String) :=
  Except.ok (get_device_list m)

/-- Reading `last_cc` as an exception-aware call. -/
def last_cc_call (m : MidiManager) : Except Unit (Option (Nat × Nat)) :=
  Except.ok m.last_cc

/-- `register_cc_callback` as an exception-aware call: dict assignment and
`list.append` never raise. -/
def register_cc_callback_call (m : MidiManager) (cc_number : Nat)
    (callback : Callback) : Except Unit MidiManager :=
  Except.ok (register_cc_callback m cc_number callback)

/-- `unregister_cc_callback` as an exception-aware call: the one raising
operation, `list.remove`, is modelled by `pyListRemove` and reached only
behind the membership guard. -/
def unregister_cc_callback_call (m : MidiManager) (cc_number : Nat)
    (callback : Callback) : Except Unit MidiManager :=
  if callback ∈ getCbs m cc_number then
    (pyListRemove (getCbs m cc_number) callback).map
      (fun l => { m with cc_callbacks := dictInsert m.cc_callbacks cc_number l })
  else Except.ok m

/-- `close` as an exception-aware call: every raising operation inside it
is wrapped in `try/except` by the source. -/
def close_call (m : MidiManager) : Except Unit MidiManager :=
  Except.ok (close m)

/-- Registering a list of callbacks one after the other on the same
controller number. -/
def registerAll (m : MidiManager) (cc_number : Nat) (cbs : List Callback) :
    MidiManager :=
  cbs.foldl (fun s cb => register_cc_callback s cc_number cb) m

/-- Concrete device names used by witnesses. -/
def devA : String := "Device A"

def devB : String := "Device B"

/-! ## Basic lemmas about the embedded operations -/

theorem dictGet_insert_self {α : Type} (d : List (Nat × α)) (k : Nat) (v : α) :
    dictGet (dictInsert d k v) k = some v := by
  induction d with
  | nil => simp [dictInsert, dictGet]
  | cons p t ih =>
    by_cases h : p.1 = k
    · simp [dictInsert, h, dictGet]
    · simp [dictInsert, h, dictGet, ih]

theorem dictGet_insert_ne {α : Type} (d : List (Nat × α)) (k k' : Nat) (v : α)
    (h : k' ≠ k) : dictGet (dictInsert d k v) k' = dictGet d k' := by
  induction d with
  | nil => simp [dictInsert, dictGet, Ne.symm h]
  | cons p t ih =>
    by_cases hp : p.1 = k
    · subst hp
      simp [dictInsert, dictGet, Ne.symm h]
    · simp [dictInsert, hp, dictGet, ih]

/-- The dispatcher maps `invokeOne` over the registered list (empty when
the key is absent). -/
theorem trigger_callbacks_eq (m : MidiManager) (cc v ch : Nat)
    (dev : Option String) :
    trigger_callbacks m cc v ch dev
      = ((dictGet m.cc_callbacks cc).getD []).map (invokeOne cc v ch dev) := by
  unfold trigger_callbacks
  cases dictGet m.cc_callbacks cc <;> rfl

/-- `process_cc_message` factored through the decoding logic: on decode
failure the state is returned untouched with an empty dispatch trace; on
success the store and last-event slot are updated and the dispatcher runs
on the updated state. -/
theorem process_cc_message_eq (m : MidiManager) (data : List Nat)
    (dev : String) :
    process_cc_message m data dev =
      match decode_cc data with
      | some e =>
        let m1 := { m with
          cc_values := dictInsert m.cc_values e.controller_number e.value
          last_cc := some (e.controller_number, e.value) }
        (m1, trigger_callbacks m1 e.controller_number e.value e.channel (some dev))
      | none => (m, []) := by
  unfold process_cc_message decode_cc
  by_cases h2 : 2 ≤ data.length
  · rw [if_pos h2, if_pos h2]
    by_cases h3 : (data.getD 0 0) &&& 0xF0 = 0xB0 ∧ 3 ≤ data.length
    · rw [if_pos h3, if_pos h3]
    · rw [if_neg h3, if_neg h3]
  · rw [if_neg h2, if_neg h2]

/-- Inversion for a successful decode: the event fields are the raw bytes
and the status-byte nibbles, and the guards held. -/
theorem decode_cc_some (data : List Nat) (e : ControlChangeEvent)
    (h : decode_cc data = some e) :
    e.controller_number = data.getD 1 0 ∧ e.value = data.getD 2 0 ∧
    e.channel = (data.getD 0 0) &&& 0x0F ∧
    (data.getD 0 0) &&& 0xF0 = 0xB0 ∧ 3 ≤ data.length := by
  unfold decode_cc at h
  split at h
  · split at h
    next hc =>
      have he := (Option.some.inj h).symm
      subst he
      exact ⟨rfl, rfl, rfl, hc.1, hc.2⟩
    next hc => exact absurd h (by simp)
  · exact absurd h (by simp)

/-- `invokeOne` always records the callback's identity. -/
theorem invokeOne_cbId (cc v ch : Nat) (dev : Option String) (cb : Callback) :
    (invokeOne cc v ch dev cb).cbId = cb.id := by
  unfold invokeOne
  split <;> rfl

/-- Registering appends to the list at the key. -/
theorem register_cc_callback_get (m : MidiManager) (cc : Nat) (cb : Callback) :
    dictGet (register_cc_callback m cc cb).cc_callbacks cc
      = some (getCbs m cc ++ [cb]) := by
  unfold register_cc_callback
  exact dictGet_insert_self _ _ _

/-- Registering leaves other controller numbers untouched. -/
theorem register_cc_callback_get_ne (m : MidiManager) (cc cc' : Nat)
    (cb : Callback) (h : cc' ≠ cc) :
    dictGet (register_cc_callback m cc cb).cc_callbacks cc'
      = dictGet m.cc_callbacks cc' := by
  unfold register_cc_callback
  exact dictGet_insert_ne _ _ _ _ h

theorem registerAll_cons (m : MidiManager) (cc : Nat) (c : Callback)
    (t : List Callback) :
    registerAll m cc (c :: t) = registerAll (register_cc_callback m cc c) cc t :=
  rfl

/-- Registering a whole list appends it to the existing entry. -/
theorem registerAll_get_some (m : MidiManager) (cc : Nat) (cbs : List Callback)
    (l : List Callback) (h : dictGet m.cc_callbacks cc = some l) :
    dictGet (registerAll m cc cbs).cc_callbacks cc = some (l ++ cbs) := by
  induction cbs generalizing m l with
  | nil => simpa [registerAll] using h
  | cons c t ih =>
    rw [registerAll_cons]
    have hr : dictGet (register_cc_callback m cc c).cc_callbacks cc
        = some (l ++ [c]) := by
      have hg := register_cc_callback_get m cc c
      rw [getCbs, h] at hg
      simpa using hg
    have := ih _ _ hr
    simpa using this

/-- Registering a list on a fresh controller number yields exactly that
list. -/
theorem registerAll_get_none (m : MidiManager) (cc : Nat) (cbs : List Callback)
    (h : dictGet m.cc_callbacks cc = none) :
    getCbs (registerAll m cc cbs) cc = cbs := by
  cases cbs with
  | nil => simp [registerAll, getCbs, h]
  | cons c t =>
    rw [registerAll_cons]
    have hr : dictGet (register_cc_callback m cc c).cc_callbacks cc
        = some [c] := by
      have hg := register_cc_callback_get m cc c
      rw [getCbs, h] at hg
      simpa using hg
    have := registerAll_get_some _ cc t _ hr
    simp [getCbs, this]

/-- The dispatch trace of processing a successfully decoded message is one
`invokeOne` record per callback registered for the decoded controller
number, in registration order; the registry itself is not modified. -/
theorem process_trace (m : MidiManager) (data : List Nat) (dev : String)
    (e : ControlChangeEvent) (h : decode_cc data = some e) :
    (process_cc_message m data dev).2
      = (getCbs m e.controller_number).map
          (invokeOne e.controller_number e.value e.channel (some dev)) ∧
    (process_cc_message m data dev).1.cc_callbacks = m.cc_callbacks := by
  rw [process_cc_message_eq, h]
  refine ⟨?_, rfl⟩
  show trigger_callbacks _ e.controller_number e.value e.channel (some dev) = _
  rw [trigger_callbacks_eq]
  rfl

/-! ## Claims -/

/-- Claim C1, counterexample: the accepted byte sequence
`[0xB0, 200, 200]` stores controller number 200 with value 200 in
`cc_values` and in `last_cc`, and dispatches value 200 to a registered
callback — none of these are clamped to 0–127, refuting the claimed
clamping invariant. -/
theorem C1_counterexample :
    dictGet (process_cc_message (register_cc_callback initNoBackend 200 ⟨1, 4, false⟩)
        [0xB0, 200, 200] devA).1.cc_values 200 = some 200 ∧
    (process_cc_message (register_cc_callback initNoBackend 200 ⟨1, 4, false⟩)
        [0xB0, 200, 200] devA).1.last_cc = some (200, 200) ∧
    (process_cc_message (register_cc_callback initNoBackend 200 ⟨1, 4, false⟩)
        [0xB0, 200, 200] devA).2
      = [⟨1, 200, 200, 0, some devA, Outcome.executed⟩] ∧
    ¬ (200 : Nat) ≤ 127 := by decide

/-- Claim C1, amended: no clamping is performed — an accepted sequence
stores `controller_number = data[1]` and `value = data[2]` exactly as
received, so they lie in 0–127 exactly when those raw bytes do; a byte
sequence that fails to decode leaves the whole state unchanged and
dispatches nothing. -/
theorem C1_amended (m : MidiManager) (data : List Nat) (dev : String) :
    (decode_cc data = none → process_cc_message m data dev = (m, [])) ∧
    (∀ e, decode_cc data = some e →
      e.controller_number = data.getD 1 0 ∧ e.value = data.getD 2 0 ∧
      (process_cc_message m data dev).1.cc_values
        = dictInsert m.cc_values (data.getD 1 0) (data.getD 2 0) ∧
      (data.getD 1 0 ≤ 127 ∧ data.getD 2 0 ≤ 127 →
        e.controller_number ≤ 127 ∧ e.value ≤ 127)) := by
  constructor
  · intro h
    rw [process_cc_message_eq, h]
  · intro e h
    obtain ⟨h1, h2v, _, _, _⟩ := decode_cc_some data e h
    refine ⟨h1, h2v, ?_, ?_⟩
    · rw [process_cc_message_eq, h, ← h1, ← h2v]
    · intro hb
      exact ⟨h1 ▸ hb.1, h2v ▸ hb.2⟩

/-- Witness for `C1_amended` at the concrete accepted input
`[0xB0, 10, 20]`. -/
theorem C1_amended_witness :
    (process_cc_message initNoBackend [0xB0, 10, 20] devA).1.cc_values
      = [(10, 20)] := by
  have h := (C1_amended initNoBackend [0xB0, 10, 20] devA).2 ⟨10, 20, 0⟩ (by decide)
  rw [h.2.2.1]
  decide

/-- Claim C2: decoding `[0xB0 ||| channel, cc, value]` with
`channel ≤ 15`, `cc ≤ 127`, `value ≤ 127` yields a Control-Change event
with exactly those fields, from any prior state, and `get_cc cc dflt`
afterwards returns `value` for every default. -/
theorem C2_theorem (m : MidiManager) (channel cc value : Nat) (dev : String)
    (hch : channel ≤ 15) (hcc : cc ≤ 127) (hv : value ≤ 127) :
    decode_cc [0xB0 ||| channel, cc, value]
      = some { controller_number := cc, value := value, channel := channel } ∧
    ∀ dflt, get_cc (process_cc_message m [0xB0 ||| channel, cc, value] dev).1
        cc dflt = value := by
  have hhi : (0xB0 ||| channel) &&& 0xF0 = 0xB0 := by
    interval_cases channel <;> decide
  have hlo : (0xB0 ||| channel) &&& 0x0F = channel := by
    interval_cases channel <;> decide
  have hdec : decode_cc [0xB0 ||| channel, cc, value]
      = some { controller_number := cc, value := value, channel := channel } := by
    simp [decode_cc, hhi, hlo]
  refine ⟨hdec, fun dflt => ?_⟩
  rw [process_cc_message_eq, hdec]
  simp [get_cc, dictGet_insert_self]

/-- Witness for `C2_theorem` at channel 5, controller 10, value 99,
default 7. -/
theorem C2_witness :
    decode_cc [0xB0 ||| 5, 10, 99]
      = some { controller_number := 10, value := 99, channel := 5 } ∧
    get_cc (process_cc_message initNoBackend [0xB0 ||| 5, 10, 99] devA).1
        10 7 = 99 :=
  ⟨(C2_theorem initNoBackend 5 10 99 devA (by decide) (by decide) (by decide)).1,
   (C2_theorem initNoBackend 5 10 99 devA (by decide) (by decide) (by decide)).2 7⟩

/-- Claim C3, counterexample: the code produces no distinguishable
`ShortMessage` error — a 1-byte input is handled identically (same
result, same untouched state, same empty dispatch trace) to a non-CC
message that the claim set regards as a success, so decode failure on
short input is not distinguishable from success-with-no-event. -/
theorem C3_counterexample :
    process_cc_message initNoBackend [0xB0] devA
        = process_cc_message initNoBackend [0x90, 60, 64] devA ∧
    decode_cc [0xB0] = decode_cc [0x90, 60, 64] := by decide

/-- Claim C3, amended: a byte sequence of length 0 or 1 produces no
event, and processing it returns the state unchanged (store, last-event
slot and registry untouched) with an empty dispatch trace; the source
signals no distinguishable `ShortMessage` error, it silently drops the
input. -/
theorem C3_amended (m : MidiManager) (data : List Nat) (dev : String)
    (h : data.length < 2) :
    decode_cc data = none ∧ process_cc_message m data dev = (m, []) := by
  have hd : decode_cc data = none := by
    unfold decode_cc
    rw [if_neg (by omega)]
  exact ⟨hd, by rw [process_cc_message_eq, hd]⟩

/-- Witness for `C3_amended` at the empty byte sequence. -/
theorem C3_amended_witness :
    decode_cc [] = none ∧
    process_cc_message initNoBackend [] devA = (initNoBackend, []) :=
  C3_amended initNoBackend [] devA (by decide)

/-- Claim C4: a sequence of length ≥ 2 whose status byte's upper nibble
is not the Control-Change code decodes to no event, and processing it
leaves the state (store, last-event slot, registry) unchanged and
invokes no callback. -/
theorem C4_theorem (m : MidiManager) (data : List Nat) (dev : String)
    (h2 : 2 ≤ data.length) (hnb : (data.getD 0 0) &&& 0xF0 ≠ 0xB0) :
    decode_cc data = none ∧ process_cc_message m data dev = (m, []) := by
  have hd : decode_cc data = none := by
    unfold decode_cc
    rw [if_pos h2, if_neg (fun hc => hnb hc.1)]
  exact ⟨hd, by rw [process_cc_message_eq, hd]⟩

/-- Witness for `C4_theorem` at a note-on message `[0x90, 60, 64]`. -/
theorem C4_witness :
    decode_cc [0x90, 60, 64] = none ∧
    process_cc_message initNoBackend [0x90, 60, 64] devA
      = (initNoBackend, []) :=
  C4_theorem initNoBackend [0x90, 60, 64] devA (by decide) (by decide)

/-- Claim C5: subscribing a list of callbacks to one controller number and
processing one Control-Change event for that number produces exactly one
dispatch record per callback, in subscription order — with no assumption
on whether any callback raises, so a raising callback (discarded by the
per-callback `try/except`) does not prevent the later ones from being
invoked. -/
theorem C5_theorem (m : MidiManager) (cc value : Nat) (dev : String)
    (cbs : List Callback) (h0 : dictGet m.cc_callbacks cc = none) :
    (process_cc_message (registerAll m cc cbs) [0xB0, cc, value] dev).2
      = cbs.map (invokeOne cc value 0 (some dev)) ∧
    ((process_cc_message (registerAll m cc cbs) [0xB0, cc, value] dev).2).map
        Invocation.cbId = cbs.map Callback.id := by
  have hdec : decode_cc [0xB0, cc, value]
      = some { controller_number := cc, value := value, channel := 0 } := by
    simp [decode_cc]
    decide
  have h1 := process_trace (registerAll m cc cbs) [0xB0, cc, value] dev
    { controller_number := cc, value := value, channel := 0 } hdec
  have hreg : getCbs (registerAll m cc cbs) cc = cbs :=
    registerAll_get_none m cc cbs h0
  have htr : (process_cc_message (registerAll m cc cbs) [0xB0, cc, value] dev).2
      = cbs.map (invokeOne cc value 0 (some dev)) := by
    rw [h1.1]
    show (getCbs (registerAll m cc cbs) cc).map (invokeOne cc value 0 (some dev))
        = cbs.map (invokeOne cc value 0 (some dev))
    rw [hreg]
  refine ⟨htr, ?_⟩
  rw [htr, List.map_map]
  simp [Function.comp, invokeOne_cbId]

/-- Witness for `C5_theorem`: three callbacks on controller 7, the middle
one raising; all three are dispatched in order, the raiser's exception is
discarded. -/
theorem C5_witness :
    (process_cc_message
        (registerAll initNoBackend 7 [⟨1, 3, false⟩, ⟨2, 3, true⟩, ⟨3, 4, false⟩])
        [0xB0, 7, 5] devA).2
      = [⟨1, 7, 5, 0, none, Outcome.executed⟩,
         ⟨2, 7, 5, 0, none, Outcome.raisedInBody⟩,
         ⟨3, 7, 5, 0, some devA, Outcome.executed⟩] := by
  have h := (C5_theorem initNoBackend 7 5 devA
    [⟨1, 3, false⟩, ⟨2, 3, true⟩, ⟨3, 4, false⟩] (by decide)).1
  rw [h]
  decide

/-- Claim C6: unsubscribing an absent callback is a no-op that raises no
exception; unsubscribing a callback registered once removes it, stops
dispatching to it (every remaining dispatch record comes from a remaining
callback, none of which equals it), preserves every other subscriber's
registration count, and leaves every other controller number's registry
entry and dispatch behaviour unchanged. -/
theorem C6_theorem (m : MidiManager) (cc v ch : Nat) (dev : Option String)
    (cb : Callback) :
    (cb ∉ getCbs m cc → unregister_cc_callback m cc cb = m) ∧
    unregister_cc_callback_call m cc cb
      = Except.ok (unregister_cc_callback m cc cb) ∧
    (∀ cbs, dictGet m.cc_callbacks cc = some cbs → cbs.count cb = 1 →
      dictGet (unregister_cc_callback m cc cb).cc_callbacks cc
        = some (cbs.erase cb) ∧
      cb ∉ cbs.erase cb ∧
      (∀ d, d ≠ cb → (cbs.erase cb).count d = cbs.count d) ∧
      trigger_callbacks (unregister_cc_callback m cc cb) cc v ch dev
        = (cbs.erase cb).map (invokeOne cc v ch dev) ∧
      (∀ inv ∈ trigger_callbacks (unregister_cc_callback m cc cb) cc v ch dev,
        ∃ d ∈ cbs.erase cb, d ≠ cb ∧ inv = invokeOne cc v ch dev d)) ∧
    (∀ cc', cc' ≠ cc →
      dictGet (unregister_cc_callback m cc cb).cc_callbacks cc'
        = dictGet m.cc_callbacks cc' ∧
      trigger_callbacks (unregister_cc_callback m cc cb) cc' v ch dev
        = trigger_callbacks m cc' v ch dev) := by
  refine ⟨?_, ?_, ?_, ?_⟩
  · intro hn
    unfold unregister_cc_callback
    rw [if_neg hn]
  · unfold unregister_cc_callback_call unregister_cc_callback
    by_cases hm : cb ∈ getCbs m cc
    · rw [if_pos hm, if_pos hm]
      unfold pyListRemove
      rw [if_pos hm]
      rfl
    · rw [if_neg hm, if_neg hm]
  · intro cbs h h1
    have hg : getCbs m cc = cbs := by rw [getCbs, h]; rfl
    have hm : cb ∈ cbs := List.count_pos_iff.mp (by omega)
    have hu : unregister_cc_callback m cc cb
        = { m with cc_callbacks := dictInsert m.cc_callbacks cc (cbs.erase cb) } := by
      unfold unregister_cc_callback
      rw [hg, if_pos hm]
    have hnotmem : cb ∉ cbs.erase cb := by
      intro hmem
      have hpos : 0 < (cbs.erase cb).count cb := List.count_pos_iff.mpr hmem
      rw [List.count_erase_self, h1] at hpos
      omega
    have hget : dictGet (unregister_cc_callback m cc cb).cc_callbacks cc
        = some (cbs.erase cb) := by
      rw [hu]
      exact dictGet_insert_self _ _ _
    have htr : trigger_callbacks (unregister_cc_callback m cc cb) cc v ch dev
        = (cbs.erase cb).map (invokeOne cc v ch dev) := by
      rw [trigger_callbacks_eq, hget]
      rfl
    refine ⟨hget, hnotmem, fun d hd => List.count_erase_of_ne hd cbs, htr, ?_⟩
    intro inv hinv
    rw [htr] at hinv
    obtain ⟨d, hdmem, hdeq⟩ := List.mem_map.mp hinv
    exact ⟨d, hdmem, fun hdd => hnotmem (hdd ▸ hdmem), hdeq.symm⟩
  · intro cc' hne
    have hgc : dictGet (unregister_cc_callback m cc cb).cc_callbacks cc'
        = dictGet m.cc_callbacks cc' := by
      unfold unregister_cc_callback
      by_cases hm : cb ∈ getCbs m cc
      · rw [if_pos hm]
        exact dictGet_insert_ne _ _ _ _ hne
      · rw [if_neg hm]
    refine ⟨hgc, ?_⟩
    rw [trigger_callbacks_eq, trigger_callbacks_eq, hgc]

/-- Witness for `C6_theorem`: unsubscribing an unregistered callback from
a registry holding one callback on controller 3 changes nothing;
unsubscribing the registered one empties the entry. -/
theorem C6_witness :
    unregister_cc_callback (register_cc_callback initNoBackend 3 ⟨1, 3, false⟩)
        3 ⟨2, 3, false⟩
      = register_cc_callback initNoBackend 3 ⟨1, 3, false⟩ ∧
    dictGet (unregister_cc_callback
        (register_cc_callback initNoBackend 3 ⟨1, 3, false⟩) 3
        ⟨1, 3, false⟩).cc_callbacks 3 = some [] := by
  constructor
  · exact (C6_theorem (register_cc_callback initNoBackend 3 ⟨1, 3, false⟩)
      3 0 0 none ⟨2, 3, false⟩).1 (by decide)
  · have h := ((C6_theorem (register_cc_callback initNoBackend 3 ⟨1, 3, false⟩)
      3 0 0 none ⟨1, 3, false⟩).2.2.1 [⟨1, 3, false⟩] (by decide) (by decide)).1
    rw [h]
    decide

/-- Claim C7: with no backend available at construction, the manager
discovers zero devices and zero ports, `get_cc` returns the caller's
default for every controller number, and every public API operation
(get, device list, last event, subscribe, unsubscribe, close) returns a
normal result rather than raising. -/
theorem C7_theorem :
    get_device_list initNoBackend = [] ∧
    get_port_list initNoBackend = [] ∧
    (∀ cc dflt, get_cc initNoBackend cc dflt = dflt) ∧
    (∀ cc dflt, get_cc_call initNoBackend cc dflt = Except.ok dflt) ∧
    get_device_list_call initNoBackend = Except.ok [] ∧
    last_cc_call initNoBackend = Except.ok none ∧
    (∀ cc cb, register_cc_callback_call initNoBackend cc cb
        = Except.ok (register_cc_callback initNoBackend cc cb)) ∧
    (∀ cc cb, unregister_cc_callback_call initNoBackend cc cb
        = Except.ok initNoBackend) ∧
    close_call initNoBackend = Except.ok (close initNoBackend) := by
  refine ⟨rfl, rfl, fun cc dflt => rfl, fun cc dflt => rfl, rfl, rfl,
    fun cc cb => rfl, fun cc cb => rfl, rfl⟩

/-- The device argument recorded by one dispatch attempt: passed exactly
when the callback declares at least 4 parameters. -/
theorem invokeOne_device (cc v ch : Nat) (dev : Option String) (cb : Callback) :
    (invokeOne cc v ch dev cb).device
      = if 4 ≤ cb.arity then dev else none := by
  unfold invokeOne
  split <;> rfl

/-- The outcome recorded by one dispatch attempt: a call with 4 arguments
when the callback declares at least 4 parameters, otherwise with 3. -/
theorem invokeOne_outcome (cc v ch : Nat) (dev : Option String) (cb : Callback) :
    (invokeOne cc v ch dev cb).outcome
      = callPython cb (if 4 ≤ cb.arity then 4 else 3) := by
  unfold invokeOne
  split <;> rfl

/-- A dispatched callback's body runs (no `TypeError` from the call
itself) exactly when it declares 3 or 4 parameters. -/
theorem invokeOne_executes_iff (cc v ch : Nat) (dev : Option String)
    (cb : Callback) :
    ((invokeOne cc v ch dev cb).outcome ≠ Outcome.arityError ↔
      (cb.arity = 3 ∨ cb.arity = 4)) := by
  rw [invokeOne_outcome]
  unfold callPython
  by_cases h4 : 4 ≤ cb.arity
  · rw [if_pos h4]
    by_cases he : (4 : Nat) = cb.arity
    · rw [if_pos he]
      cases hb : cb.raises <;> simp <;> omega
    · rw [if_neg he]
      simp
      omega
  · rw [if_neg h4]
    by_cases he : (3 : Nat) = cb.arity
    · rw [if_pos he]
      cases hb : cb.raises <;> simp <;> omega
    · rw [if_neg he]
      simp
      omega

/-- Claim C8, counterexample: a callback declaring 2 parameters is
dispatched with the device name omitted (3 positional arguments), but the
call itself raises `TypeError` — silently discarded — so the callback
never actually executes, refuting "in every case the callback is still
invocable (it actually executes)". -/
theorem C8_counterexample :
    (process_cc_message (register_cc_callback initNoBackend 1 ⟨7, 2, false⟩)
        [0xB0, 1, 5] devA).2
      = [⟨7, 1, 5, 0, none, Outcome.arityError⟩] ∧
    (∀ inv ∈ (process_cc_message
        (register_cc_callback initNoBackend 1 ⟨7, 2, false⟩)
        [0xB0, 1, 5] devA).2,
      inv.outcome ≠ Outcome.executed ∧ inv.outcome ≠ Outcome.raisedInBody) := by
  decide

/-- Claim C8, amended: the dispatcher inspects the declared parameter
count of every registered callback and performs exactly one call attempt
per callback — with the device name when the count is at least 4 and
without it otherwise — but the callback's body actually executes only
when the declared count is exactly 3 or exactly 4; for any other count
the call raises and is silently discarded. -/
theorem C8_amended (m : MidiManager) (cc v ch : Nat) (dev : Option String)
    (cbs : List Callback) (cb : Callback)
    (hreg : dictGet m.cc_callbacks cc = some cbs) (hmem : cb ∈ cbs) :
    invokeOne cc v ch dev cb ∈ trigger_callbacks m cc v ch dev ∧
    (4 ≤ cb.arity → (invokeOne cc v ch dev cb).device = dev) ∧
    (cb.arity < 4 → (invokeOne cc v ch dev cb).device = none) ∧
    ((invokeOne cc v ch dev cb).outcome ≠ Outcome.arityError ↔
      (cb.arity = 3 ∨ cb.arity = 4)) := by
  refine ⟨?_, ?_, ?_, invokeOne_executes_iff cc v ch dev cb⟩
  · rw [trigger_callbacks_eq, hreg]
    exact List.mem_map_of_mem _ hmem
  · intro h4
    rw [invokeOne_device, if_pos h4]
  · intro h3
    rw [invokeOne_device, if_neg (by omega)]

/-- Witness for `C8_amended`: a 3-parameter callback on controller 1 is
dispatched without the device name and executes. -/
theorem C8_amended_witness :
    invokeOne 1 5 0 (some devA) ⟨9, 3, false⟩ ∈
      trigger_callbacks (register_cc_callback initNoBackend 1 ⟨9, 3, false⟩)
        1 5 0 (some devA) ∧
    (invokeOne 1 5 0 (some devA) ⟨9, 3, false⟩).device = none ∧
    ((invokeOne 1 5 0 (some devA) ⟨9, 3, false⟩).outcome ≠ Outcome.arityError ↔
      ((⟨9, 3, false⟩ : Callback).arity = 3 ∨
        (⟨9, 3, false⟩ : Callback).arity = 4)) := by
  have h := C8_amended (register_cc_callback initNoBackend 1 ⟨9, 3, false⟩)
    1 5 0 (some devA) [⟨9, 3, false⟩] ⟨9, 3, false⟩ (by decide) (by decide)
  exact ⟨h.1, h.2.2.1 (by decide), h.2.2.2⟩

/-- Claim C9, counterexample: the last-event slot holds only the pair
`(controller_number, value)` — two Control-Change messages that differ in
channel and in source device leave identical slots, so the slot carries
neither a channel nor a source-device field as the claim asserts. -/
theorem C9_counterexample :
    (process_cc_message initNoBackend [0xB1, 3, 4] devA).1.last_cc
      = (process_cc_message initNoBackend [0xB2, 3, 4] devB).1.last_cc ∧
    (process_cc_message (process_cc_message initNoBackend [0xB0, 1, 2] devA).1
        [0xB1, 3, 4] devB).1.last_cc = some (3, 4) := by decide

/-- Claim C9, amended: the last-event slot is overwritten unconditionally
by every successfully decoded Control-Change message regardless of the
source device, and after two processed messages it holds the
`(controller_number, value)` pair — and only that pair — of whichever
message was processed second. -/
theorem C9_amended (m : MidiManager) (d1 d2 : List Nat) (n1 n2 : String)
    (e2 : ControlChangeEvent) (h : decode_cc d2 = some e2) :
    (process_cc_message (process_cc_message m d1 n1).1 d2 n2).1.last_cc
      = some (e2.controller_number, e2.value) := by
  rw [process_cc_message_eq (process_cc_message m d1 n1).1 d2 n2, h]

/-- Witness for `C9_amended`: after `[0xB0, 1, 2]` from device A then
`[0xB5, 3, 4]` from device B, the slot holds `(3, 4)`. -/
theorem C9_amended_witness :
    (process_cc_message (process_cc_message initNoBackend [0xB0, 1, 2] devA).1
        [0xB5, 3, 4] devB).1.last_cc = some (3, 4) :=
  C9_amended initNoBackend [0xB0, 1, 2] [0xB5, 3, 4] devA devB
    { controller_number := 3, value := 4, channel := 5 } (by decide)

/-- Claim C10: when a callback occurs at least twice in a controller
number's list, one unsubscribe removes exactly the first (earliest)
occurrence — for any split `l = p ++ cb :: s` with `cb ∉ p` the list
becomes `p ++ s` — its count drops by one but stays positive, the
callback remains registered, and dispatch still produces its invocation
record. -/
theorem C10_theorem (m : MidiManager) (cc v ch : Nat) (dev : Option String)
    (cb : Callback) (l : List Callback)
    (hreg : dictGet m.cc_callbacks cc = some l) (h2 : 2 ≤ l.count cb) :
    dictGet (unregister_cc_callback m cc cb).cc_callbacks cc
      = some (l.erase cb) ∧
    (∀ p s, l = p ++ cb :: s → cb ∉ p → l.erase cb = p ++ s) ∧
    (l.erase cb).count cb = l.count cb - 1 ∧
    cb ∈ l.erase cb ∧
    trigger_callbacks (unregister_cc_callback m cc cb) cc v ch dev
      = (l.erase cb).map (invokeOne cc v ch dev) ∧
    invokeOne cc v ch dev cb ∈
      trigger_callbacks (unregister_cc_callback m cc cb) cc v ch dev := by
  have hg : getCbs m cc = l := by rw [getCbs, hreg]; rfl
  have hm : cb ∈ l := List.count_pos_iff.mp (by omega)
  have hu : unregister_cc_callback m cc cb
      = { m with cc_callbacks := dictInsert m.cc_callbacks cc (l.erase cb) } := by
    unfold unregister_cc_callback
    rw [hg, if_pos hm]
  have hget : dictGet (unregister_cc_callback m cc cb).cc_callbacks cc
      = some (l.erase cb) := by
    rw [hu]
    exact dictGet_insert_self _ _ _
  have hcount : (l.erase cb).count cb = l.count cb - 1 :=
    List.count_erase_self cb l
  have hmem : cb ∈ l.erase cb :=
    List.count_pos_iff.mp (by rw [hcount]; omega)
  have htr : trigger_callbacks (unregister_cc_callback m cc cb) cc v ch dev
      = (l.erase cb).map (invokeOne cc v ch dev) := by
    rw [trigger_callbacks_eq, hget]
    rfl
  refine ⟨hget, ?_, hcount, hmem, htr, ?_⟩
  · intro p s hl hp
    subst hl
    rw [List.erase_append_right _ hp, List.erase_cons_head]
  · rw [htr]
    exact List.mem_map_of_mem _ hmem

/-- Witness for `C10_theorem`: the same callback registered twice on
controller 4; one unsubscribe leaves one occurrence, still dispatched. -/
theorem C10_witness :
    dictGet (unregister_cc_callback
        (registerAll initNoBackend 4 [⟨5, 3, false⟩, ⟨5, 3, false⟩]) 4
        ⟨5, 3, false⟩).cc_callbacks 4 = some [⟨5, 3, false⟩] ∧
    invokeOne 4 9 0 none ⟨5, 3, false⟩ ∈
      trigger_callbacks (unregister_cc_callback
        (registerAll initNoBackend 4 [⟨5, 3, false⟩, ⟨5, 3, false⟩]) 4
        ⟨5, 3, false⟩) 4 9 0 none := by
  have h := C10_theorem
    (registerAll initNoBackend 4 [⟨5, 3, false⟩, ⟨5, 3, false⟩]) 4 9 0 none
    ⟨5, 3, false⟩ [⟨5, 3, false⟩, ⟨5, 3, false⟩] (by decide) (by decide)
  refine ⟨?_, h.2.2.2.2.2⟩
  rw [h.1]
  decide
